import Mathlib

/-!
Verification of the finmarketpy example scripts
(`fx_options_indices_examples.py`, `fx_options_pricing_examples.py`).

The scripts are glue code around external libraries (findatapy, chartpy,
finmarketpy's curve/pricing engines).  We embed, shallowly:

* the one script-defined function `prepare_indices` as a function building a
  term of a free algebra `Frame` whose constructors are the external library
  entry points it invokes (column selection, `pd.DataFrame` wrapping,
  `pandas_outer_join`, forward fill, `create_mult_index_from_prices`);
* the `MarketDataRequest` records the index examples build and the field
  reassignments the scripts perform between the two fetches;
* each example block as a list of `Event`s (object construction, method
  calls, attribute writes, prints, plots), from which single-threadedness,
  definition-before-use and block ordering are checked;
* the enabled blocks as `Except` pipelines, to show failures of external
  calls propagate unmodified.
-/

/-- Free algebra of dataframe expressions.  Each constructor is one of the
external library operations the scripts apply to tabular data; `input` is an
opaque dataframe handed to the script code. -/
inductive Frame where
  /-- an externally produced dataframe (e.g. a fetched table) -/
  | input (name : String) : Frame
  /-- `df[col]`: selection of a single column -/
  | colSelect (df : Frame) (col : String) : Frame
  /-- `pd.DataFrame(...)`: wrapping a selected column as a dataframe -/
  | wrap (df : Frame) : Frame
  /-- `calculations.pandas_outer_join(df_list)` -/
  | outerJoin (dfs : List Frame) : Frame
  /-- `.fillna(method='ffill')` -/
  | ffill (df : Frame) : Frame
  /-- `calculations.create_mult_index_from_prices(df)` -/
  | multIndex (df : Frame) : Frame
deriving Repr

mutual

/-- Boolean equality on frame expressions. -/
def Frame.beq : Frame → Frame → Bool
  | .input a, .input b => a == b
  | .colSelect d a, .colSelect e b => Frame.beq d e && a == b
  | .wrap d, .wrap e => Frame.beq d e
  | .outerJoin ds, .outerJoin es => Frame.beqList ds es
  | .ffill d, .ffill e => Frame.beq d e
  | .multIndex d, .multIndex e => Frame.beq d e
  | _, _ => false

/-- Boolean equality on lists of frame expressions. -/
def Frame.beqList : List Frame → List Frame → Bool
  | [], [] => true
  | d :: ds, e :: es => Frame.beq d e && Frame.beqList ds es
  | _, _ => false

end

mutual

theorem Frame.beq_iff : ∀ a b : Frame, Frame.beq a b = true ↔ a = b
  | .input _, .input _ => by simp [Frame.beq]
  | .colSelect d _, .colSelect e _ => by simp [Frame.beq, Frame.beq_iff d e]
  | .wrap d, .wrap e => by simp [Frame.beq, Frame.beq_iff d e]
  | .outerJoin ds, .outerJoin es => by simp [Frame.beq, Frame.beqList_iff ds es]
  | .ffill d, .ffill e => by simp [Frame.beq, Frame.beq_iff d e]
  | .multIndex d, .multIndex e => by simp [Frame.beq, Frame.beq_iff d e]
  | .input _, .colSelect _ _ => by simp [Frame.beq]
  | .input _, .wrap _ => by simp [Frame.beq]
  | .input _, .outerJoin _ => by simp [Frame.beq]
  | .input _, .ffill _ => by simp [Frame.beq]
  | .input _, .multIndex _ => by simp [Frame.beq]
  | .colSelect _ _, .input _ => by simp [Frame.beq]
  | .colSelect _ _, .wrap _ => by simp [Frame.beq]
  | .colSelect _ _, .outerJoin _ => by simp [Frame.beq]
  | .colSelect _ _, .ffill _ => by simp [Frame.beq]
  | .colSelect _ _, .multIndex _ => by simp [Frame.beq]
  | .wrap _, .input _ => by simp [Frame.beq]
  | .wrap _, .colSelect _ _ => by simp [Frame.beq]
  | .wrap _, .outerJoin _ => by simp [Frame.beq]
  | .wrap _, .ffill _ => by simp [Frame.beq]
  | .wrap _, .multIndex _ => by simp [Frame.beq]
  | .outerJoin _, .input _ => by simp [Frame.beq]
  | .outerJoin _, .colSelect _ _ => by simp [Frame.beq]
  | .outerJoin _, .wrap _ => by simp [Frame.beq]
  | .outerJoin _, .ffill _ => by simp [Frame.beq]
  | .outerJoin _, .multIndex _ => by simp [Frame.beq]
  | .ffill _, .input _ => by simp [Frame.beq]
  | .ffill _, .colSelect _ _ => by simp [Frame.beq]
  | .ffill _, .wrap _ => by simp [Frame.beq]
  | .ffill _, .outerJoin _ => by simp [Frame.beq]
  | .ffill _, .multIndex _ => by simp [Frame.beq]
  | .multIndex _, .input _ => by simp [Frame.beq]
  | .multIndex _, .colSelect _ _ => by simp [Frame.beq]
  | .multIndex _, .wrap _ => by simp [Frame.beq]
  | .multIndex _, .ffill _ => by simp [Frame.beq]
  | .multIndex _, .outerJoin _ => by simp [Frame.beq]

theorem Frame.beqList_iff : ∀ ds es : List Frame, Frame.beqList ds es = true ↔ ds = es
  | [], [] => by simp [Frame.beqList]
  | d :: ds, e :: es => by
      simp [Frame.beqList, Frame.beq_iff d e, Frame.beqList_iff ds es]
  | [], _ :: _ => by simp [Frame.beqList]
  | _ :: _, [] => by simp [Frame.beqList]

end

instance : DecidableEq Frame := fun a b => decidable_of_iff _ (Frame.beq_iff a b)

mutual

/-- The skeleton of a frame expression: the same tree of library calls, with
the identities of input frames and of selected columns erased.  Two frame
expressions with different skeletons are built by different sequences of
library operations. -/
def Frame.skeleton : Frame → Frame
  | .input _ => .input ""
  | .colSelect df _ => .colSelect df.skeleton ""
  | .wrap df => .wrap df.skeleton
  | .outerJoin dfs => .outerJoin (Frame.skeletonList dfs)
  | .ffill df => .ffill df.skeleton
  | .multIndex df => .multIndex df.skeleton

/-- Skeletons of a list of frame expressions. -/
def Frame.skeletonList : List Frame → List Frame
  | [] => []
  | d :: ds => d.skeleton :: Frame.skeletonList ds

end

mutual

/-- The column names selected (via `df[col]`) in a frame expression, in
left-to-right order. -/
def Frame.cols : Frame → List String
  | .input _ => []
  | .colSelect df c => Frame.cols df ++ [c]
  | .wrap df => Frame.cols df
  | .outerJoin dfs => Frame.colsList dfs
  | .ffill df => Frame.cols df
  | .multIndex df => Frame.cols df

/-- Column names selected in a list of frame expressions. -/
def Frame.colsList : List Frame → List String
  | [] => []
  | d :: ds => Frame.cols d ++ Frame.colsList ds

end

/-- Embedding of `prepare_indices` (fx_options_indices_examples.py, lines
50-68).  The Python function reads the module-global `cross`; here that
ambient script state is an explicit first argument.  `df_list` starts empty;
each `if <arg> is not None` block appends to it. -/
def prepare_indices (cross : String) (df_tot df_tc df_spot_tot : Option Frame) :
    Frame :=
  let df_list : List Frame := []
  let df_list : List Frame :=
    match df_tot with
    | some t => df_list ++
        [Frame.wrap (Frame.colSelect t (cross ++ "-option-tot.close")),
         Frame.wrap (Frame.colSelect t (cross ++ "-option-delta-tot.close")),
         Frame.wrap (Frame.colSelect t (cross ++ "-delta-pnl-index.close"))]
    | none => df_list
  let df_list : List Frame :=
    match df_tc with
    | some t => df_list ++
        [Frame.wrap (Frame.colSelect t (cross ++ "-option-tot-with-tc.close")),
         Frame.wrap (Frame.colSelect t (cross ++ "-option-delta-tot-with-tc.close")),
         Frame.wrap (Frame.colSelect t (cross ++ "-delta-pnl-index-with-tc.close"))]
    | none => df_list
  let df_list : List Frame :=
    match df_spot_tot with
    | some s => df_list ++ [s]
    | none => df_list
  let df := Frame.ffill (Frame.outerJoin df_list)
  Frame.multIndex df

/-- The frame combination that claim C4 describes, written from the claim's
words: the three `-option-…`/`-delta-pnl-…` columns of `df_tot` in order,
then the three `-with-tc` columns of `df_tc` in order, then `df_spot_tot`
whole and last; the result is `create_mult_index_from_prices` of the
forward-filled outer join of exactly these frames. -/
def prepare_indices_described (cross : String)
    (df_tot df_tc df_spot_tot : Option Frame) : Frame :=
  Frame.multIndex (Frame.ffill (Frame.outerJoin (
    (match df_tot with
     | some t =>
        [Frame.wrap (Frame.colSelect t (cross ++ "-option-tot.close")),
         Frame.wrap (Frame.colSelect t (cross ++ "-option-delta-tot.close")),
         Frame.wrap (Frame.colSelect t (cross ++ "-delta-pnl-index.close"))]
     | none => []) ++
    (match df_tc with
     | some t =>
        [Frame.wrap (Frame.colSelect t (cross ++ "-option-tot-with-tc.close")),
         Frame.wrap (Frame.colSelect t (cross ++ "-option-delta-tot-with-tc.close")),
         Frame.wrap (Frame.colSelect t (cross ++ "-delta-pnl-index-with-tc.close"))]
     | none => []) ++
    (match df_spot_tot with
     | some s => [s]
     | none => []))))

/-- Claim C1's reading of the script-defined function: `prepare_indices`
performs no branching of its own, so on atomic input frames the tree of
library calls it makes cannot depend on which arguments are supplied. -/
def prepare_indices_branch_free : Prop :=
  ∀ (cross : String) (a b c a2 b2 c2 : Option String),
    Frame.skeleton (prepare_indices cross (a.map Frame.input)
      (b.map Frame.input) (c.map Frame.input)) =
    Frame.skeleton (prepare_indices cross (a2.map Frame.input)
      (b2.map Frame.input) (c2.map Frame.input))

/-- The library-call skeleton that `prepare_indices` produces, as a function
of the presence pattern of its three optional arguments alone. -/
def presence_skeleton (hasTot hasTc hasSpot : Bool) : Frame :=
  Frame.multIndex (Frame.ffill (Frame.outerJoin (
    (if hasTot then
      [Frame.wrap (Frame.colSelect (Frame.input "") ""),
       Frame.wrap (Frame.colSelect (Frame.input "") ""),
       Frame.wrap (Frame.colSelect (Frame.input "") "")] else []) ++
    (if hasTc then
      [Frame.wrap (Frame.colSelect (Frame.input "") ""),
       Frame.wrap (Frame.colSelect (Frame.input "") ""),
       Frame.wrap (Frame.colSelect (Frame.input "") "")] else []) ++
    (if hasSpot then [Frame.input ""] else []))))

/-- The fields of a findatapy `MarketDataRequest` that the index example
blocks set at construction or reassign afterwards.  `abstract_curve` is
`Option`-valued because the scripts assign `None` to it. -/
structure MarketDataRequest where
  start_date : String
  finish_date : String
  data_source : String
  cut : String
  category : String
  tickers : String
  fx_vol_tenor : List String
  cache_algo : String
  base_depos_currencies : List String
  abstract_curve : Option String
deriving DecidableEq, Repr

/-- The `MarketDataRequest(...)` constructor call shared by both index
example blocks (fx_options_indices_examples.py, lines 83-86 and 163-166):
only `start_date`, `finish_date`, `cut` and `cross` differ between the two.
`base_depos_currencies=[cross[0:3], cross[3:6]]`.  The constructor is
external; its default for `abstract_curve` is the parameter `ac0`. -/
def indices_md_request (start_date finish_date cut cross : String)
    (ac0 : Option String) : MarketDataRequest :=
  { start_date := start_date, finish_date := finish_date,
    data_source := "bloomberg", cut := cut, category := "fx-vol-market",
    tickers := cross, fx_vol_tenor := ["1W", "1M", "3M"],
    cache_algo := "cache_algo_return",
    base_depos_currencies := [cross.take 3, (cross.drop 3).take 3],
    abstract_curve := ac0 }

/-- `md_request` as constructed in the `run_example == 1` block of
fx_options_indices_examples.py (lines 77-86). -/
def md_request_ex1 (ac0 : Option String) : MarketDataRequest :=
  indices_md_request "01 Jan 2007" "31 Dec 2008" "BGN" "AUDUSD" ac0

/-- `md_request` as constructed in the `run_example == 2` block of
fx_options_indices_examples.py (lines 154-166; line 155 reassigns the date
variables, so the constructed request holds the 2007-2014 window). -/
def md_request_ex2 (ac0 : Option String) : MarketDataRequest :=
  indices_md_request "09 Mar 2007" "31 Dec 2014" "10AM" "EURUSD" ac0

/-- The three reassignments both index example blocks perform between the
first fetch and the Bloomberg total-return fetch
(fx_options_indices_examples.py, lines 126-130 and 200-204):
`md_request.abstract_curve = None`, `md_request.category = 'fx-tot'`,
`md_request.cut = 'NYC'`. -/
def set_spot_tot_fields (r : MarketDataRequest) : MarketDataRequest :=
  let r := { r with abstract_curve := none }
  let r := { r with category := "fx-tot" }
  { r with cut := "NYC" }

/-- One observable step of a script.  `new`, `call` and `callScript` bind
their result to a script variable when the source assigns one; `args` lists
the script variables passed.  The constructors `spawnThread`,
`spawnProcess` and `externalWrite` are the operations a script could in
principle perform but these scripts never do. -/
inductive Event where
  /-- construction of a library object -/
  | new (cls : String) (boundTo : Option String) (args : List String) : Event
  /-- a method call on an object held in a script variable -/
  | call (recv meth : String) (boundTo : Option String) (args : List String) : Event
  /-- a call of a script-defined function -/
  | callScript (fn : String) (boundTo : Option String) (args : List String) : Event
  /-- assignment to an attribute of an object held in a script variable -/
  | setattr (obj field : String) : Event
  /-- printing to standard output -/
  | print (args : List String) : Event
  /-- a plotting call -/
  | plot (recv : String) (args : List String) : Event
  /-- creation of a new thread -/
  | spawnThread : Event
  /-- creation of a new process -/
  | spawnProcess : Event
  /-- a write to program state outside the script's own variables -/
  | externalWrite (target : String) : Event
deriving DecidableEq, Repr

/-- Does an event start a new thread or process? -/
def Event.isSpawn : Event → Bool
  | .spawnThread => true
  | .spawnProcess => true
  | _ => false

/-- Does an event write program state outside the script's variables? -/
def Event.writesOutside : Event → Bool
  | .externalWrite _ => true
  | _ => false

/-- The script variables an event binds. -/
def Event.defines : Event → List String
  | .new _ (some v) _ => [v]
  | .call _ _ (some v) _ => [v]
  | .callScript _ (some v) _ => [v]
  | _ => []

/-- The script variables an event reads (receiver included). -/
def Event.uses : Event → List String
  | .new _ _ args => args
  | .call recv _ _ args => recv :: args
  | .callScript _ _ args => args
  | .setattr obj _ => [obj]
  | .print args => args
  | .plot recv args => recv :: args
  | _ => []

/-- A trace never spawns a thread or a process. -/
def singleThreaded (t : List Event) : Bool :=
  t.all (fun e => !e.isSpawn)

/-- A trace writes nothing outside the script's own variables. -/
def noOutsideWrites (t : List Event) : Bool :=
  t.all (fun e => !e.writesOutside)

/-- Every variable an event reads was bound by an earlier event (or belongs
to the initial environment, e.g. imported module names). -/
def usesAfterDef (env : List String) : List Event → Bool
  | [] => true
  | e :: t => e.uses.all (fun v => env.contains v) && usesAfterDef (env ++ e.defines) t

/-- The variable `v` is read only by printing and plotting events of the
trace. -/
def consumedOnlyByOutput (v : String) (t : List Event) : Bool :=
  t.all (fun e =>
    match e with
    | .print _ => true
    | .plot _ _ => true
    | _ => !(e.uses.contains v))

/-- Module-level statements shared by both scripts: logger, chart and the
`Market(market_data_generator=MarketDataGenerator())` object. -/
def scriptPrelude : List Event :=
  [Event.new "LoggerManager" (some "tmp_lm") [],
   Event.call "tmp_lm" "getLogger" (some "logger") [],
   Event.new "Chart" (some "chart") [],
   Event.new "MarketDataGenerator" (some "tmp_mdgen") [],
   Event.new "Market" (some "market") ["tmp_mdgen"]]

/-- fx_options_pricing_examples.py, `run_example == 1` block (lines 52-81):
GBPUSD over the Brexit vote; three priced options, each printed. -/
def pricingBlock1 : List Event :=
  [Event.new "MarketDataRequest" (some "md_request") [],
   Event.call "market" "fetch_market" (some "df") ["md_request"],
   Event.new "FXVolSurface" (some "fx_vol_surface") ["df"],
   Event.new "FXOptionsPricer" (some "fx_op") ["fx_vol_surface"],
   Event.print [],
   Event.call "fx_op" "price_instrument" (some "tmp_p1") [],
   Event.print ["tmp_p1"],
   Event.print [],
   Event.call "fx_op" "price_instrument" (some "tmp_p2") [],
   Event.print ["tmp_p2"],
   Event.print [],
   Event.call "fx_op" "price_instrument" (some "tmp_p3") [],
   Event.print ["tmp_p3"]]

/-- fx_options_pricing_examples.py, `run_example == 2` block (lines 87-118):
USDJPY; a business-date range is built, then three priced options. -/
def pricingBlock2 : List Event :=
  [Event.call "pd" "bdate_range" (some "horizon_date") [],
   Event.new "MarketDataRequest" (some "md_request") [],
   Event.call "market" "fetch_market" (some "df") ["md_request"],
   Event.new "FXVolSurface" (some "fx_vol_surface") ["df"],
   Event.new "FXOptionsPricer" (some "fx_op") ["fx_vol_surface"],
   Event.print [],
   Event.call "fx_op" "price_instrument" (some "tmp_p4") ["horizon_date"],
   Event.print ["tmp_p4"],
   Event.print [],
   Event.call "fx_op" "price_instrument" (some "tmp_p5") ["horizon_date"],
   Event.print ["tmp_p5"],
   Event.print [],
   Event.call "fx_op" "price_instrument" (some "tmp_p6") ["horizon_date"],
   Event.print ["tmp_p6"]]

/-- fx_options_pricing_examples.py, `run_example == 3` block (lines
123-144): AUDUSD, one broken-date option priced and printed. -/
def pricingBlock3 : List Event :=
  [Event.new "MarketDataRequest" (some "md_request") [],
   Event.call "market" "fetch_market" (some "df") ["md_request"],
   Event.new "FXVolSurface" (some "fx_vol_surface") ["df"],
   Event.new "FXOptionsPricer" (some "fx_op") ["fx_vol_surface"],
   Event.print [],
   Event.call "fx_op" "price_instrument" (some "tmp_p7") [],
   Event.print ["tmp_p7"]]

/-- fx_options_pricing_examples.py, `run_example == 4` block (lines
147-170): AUDUSD, one broken-date option priced and printed. -/
def pricingBlock4 : List Event :=
  [Event.new "MarketDataRequest" (some "md_request") [],
   Event.call "market" "fetch_market" (some "df") ["md_request"],
   Event.new "FXVolSurface" (some "fx_vol_surface") ["df"],
   Event.new "FXOptionsPricer" (some "fx_op") ["fx_vol_surface"],
   Event.print [],
   Event.call "fx_op" "price_instrument" (some "tmp_p8") [],
   Event.print ["tmp_p8"]]

/-- fx_options_pricing_examples.py, `run_example == 5` block (lines
173-196): EURUSD, one option priced and printed. -/
def pricingBlock5 : List Event :=
  [Event.new "MarketDataRequest" (some "md_request") [],
   Event.call "market" "fetch_market" (some "df") ["md_request"],
   Event.new "FXVolSurface" (some "fx_vol_surface") ["df"],
   Event.new "FXOptionsPricer" (some "fx_op") ["fx_vol_surface"],
   Event.print [],
   Event.call "fx_op" "price_instrument" (some "tmp_p9") [],
   Event.print ["tmp_p9"]]

/-- fx_options_indices_examples.py, `run_example == 1` block (lines
73-144): AUDUSD 1M calls and puts, transaction costs, the three
reassignments of `md_request`, the Bloomberg total-return fetch, and three
plots of prepared indices. -/
def indicesBlock1 : List Event :=
  [Event.new "MarketDataRequest" (some "md_request") [],
   Event.call "market" "fetch_market" (some "df") ["md_request"],
   Event.call "df" "fillna" (some "df") ["df"],
   Event.new "Filter" (some "tmp_filter") [],
   Event.call "tmp_filter" "filter_time_series_by_holidays" (some "df") ["df"],
   Event.call "market" "fetch_market" (some "tmp_mkt") ["md_request"],
   Event.call "tmp_mkt" "fillna" (some "df_market") ["tmp_mkt"],
   Event.new "FXOptionsCurve" (some "fx_options_curve") [],
   Event.call "fx_options_curve" "construct_total_return_index"
     (some "df_cuemacro_option_call_tot") ["df"],
   Event.call "fx_options_curve" "apply_tc_to_total_return_index"
     (some "df_cuemacro_option_call_tc") ["df_cuemacro_option_call_tot"],
   Event.call "fx_options_curve" "construct_total_return_index"
     (some "df_cuemacro_option_put_tot") ["df"],
   Event.call "fx_options_curve" "apply_tc_to_total_return_index"
     (some "df_cuemacro_option_put_tc") ["df_cuemacro_option_put_tot"],
   Event.setattr "md_request" "abstract_curve",
   Event.setattr "md_request" "category",
   Event.setattr "md_request" "cut",
   Event.call "market" "fetch_market" (some "df_bbg_tot") ["md_request"],
   Event.setattr "df_bbg_tot" "columns",
   Event.new "Calculations" (some "calculations") [],
   Event.callScript "prepare_indices" (some "tmp_i1")
     ["df_cuemacro_option_call_tot", "df_cuemacro_option_call_tc", "df_bbg_tot"],
   Event.call "calculations" "create_mult_index_from_prices" (some "tmp_c1") ["tmp_i1"],
   Event.plot "chart" ["tmp_c1"],
   Event.callScript "prepare_indices" (some "tmp_i2")
     ["df_cuemacro_option_put_tot", "df_cuemacro_option_put_tc", "df_bbg_tot"],
   Event.call "calculations" "create_mult_index_from_prices" (some "tmp_c2") ["tmp_i2"],
   Event.plot "chart" ["tmp_c2"],
   Event.callScript "prepare_indices" (some "tmp_i3")
     ["df_cuemacro_option_put_tc", "df_bbg_tot"],
   Event.call "calculations" "create_mult_index_from_prices" (some "tmp_c3") ["tmp_i3"],
   Event.plot "chart" ["tmp_c3"]]

/-- fx_options_indices_examples.py, `run_example == 2` block (lines
150-216): EURUSD 1W short straddles; one prepared index plotted through
`QuickChart` (the holiday filter of block 1 is commented out here). -/
def indicesBlock2 : List Event :=
  [Event.new "MarketDataRequest" (some "md_request") [],
   Event.call "market" "fetch_market" (some "df") ["md_request"],
   Event.call "df" "fillna" (some "df") ["df"],
   Event.call "market" "fetch_market" (some "tmp_mkt") ["md_request"],
   Event.call "tmp_mkt" "fillna" (some "df_market") ["tmp_mkt"],
   Event.new "FXOptionsCurve" (some "fx_options_curve") [],
   Event.call "fx_options_curve" "construct_total_return_index"
     (some "df_cuemacro_option_straddle_tot") ["df"],
   Event.call "fx_options_curve" "apply_tc_to_total_return_index"
     (some "df_cuemacro_option_straddle_tc") ["df_cuemacro_option_straddle_tot"],
   Event.setattr "md_request" "abstract_curve",
   Event.setattr "md_request" "category",
   Event.setattr "md_request" "cut",
   Event.call "market" "fetch_market" (some "df_bbg_tot") ["md_request"],
   Event.setattr "df_bbg_tot" "columns",
   Event.new "Calculations" (some "calculations") [],
   Event.callScript "prepare_indices" (some "tmp_i1")
     ["df_cuemacro_option_straddle_tc", "df_bbg_tot"],
   Event.call "calculations" "create_mult_index_from_prices" (some "df_index") ["tmp_i1"],
   Event.new "QuickChart" (some "tmp_qc") [],
   Event.plot "tmp_qc" ["df_index"]]

/-- The whole pricing script as a trace, one flag per example block. -/
def pricingTrace (b1 b2 b3 b4 b5 : Bool) : List Event :=
  scriptPrelude ++ (if b1 then pricingBlock1 else [])
    ++ (if b2 then pricingBlock2 else [])
    ++ (if b3 then pricingBlock3 else [])
    ++ (if b4 then pricingBlock4 else [])
    ++ (if b5 then pricingBlock5 else [])

/-- fx_options_pricing_examples.py under a given `run_example` value: each
block runs when `run_example` equals its number or 0. -/
def pricingScript (run_example : Nat) : List Event :=
  pricingTrace (run_example == 1 || run_example == 0)
    (run_example == 2 || run_example == 0)
    (run_example == 3 || run_example == 0)
    (run_example == 4 || run_example == 0)
    (run_example == 5 || run_example == 0)

/-- The whole index script as a trace, one flag per example block. -/
def indicesTrace (b1 b2 : Bool) : List Event :=
  scriptPrelude ++ (if b1 then indicesBlock1 else [])
    ++ (if b2 then indicesBlock2 else [])

/-- fx_options_indices_examples.py under a given `run_example` value. -/
def indicesScript (run_example : Nat) : List Event :=
  indicesTrace (run_example == 1 || run_example == 0)
    (run_example == 2 || run_example == 0)

/-- Initial environment of both scripts: the imported pandas module. -/
def initEnv : List String := ["pd"]

/-- Is the event the construction of an object of class `cls`? -/
def Event.isNewOf (cls : String) : Event → Bool
  | .new c _ _ => c == cls
  | _ => false

/-- Is the event a `fetch_market` call? -/
def Event.isFetch : Event → Bool
  | .call _ m _ _ => m == "fetch_market"
  | _ => false

/-- Is the event a pricing or index-construction method call? -/
def Event.isPricingCall : Event → Bool
  | .call _ m _ _ =>
      m == "price_instrument" || m == "construct_total_return_index"
        || m == "apply_tc_to_total_return_index"
  | _ => false

/-- The per-block ordering claim C9 states: a `MarketDataRequest` is
constructed, then market data is fetched, then an `FXVolSurface` is
instantiated, then an `FXOptionsPricer` or `FXOptionsCurve`, and only after
that are pricing or index-construction methods called. -/
def blockPatternStated (t : List Event) : Bool :=
  match t.findIdx? (Event.isNewOf "MarketDataRequest"),
        t.findIdx? Event.isFetch,
        t.findIdx? (Event.isNewOf "FXVolSurface"),
        t.findIdx? (fun e => Event.isNewOf "FXOptionsPricer" e
          || Event.isNewOf "FXOptionsCurve" e) with
  | some i1, some i2, some i3, some i4 =>
      decide (i1 < i2) && decide (i2 < i3) && decide (i3 < i4)
        && t.enum.all (fun p => !(Event.isPricingCall p.2) || decide (i4 < p.1))
  | _, _, _, _ => false

/-- The per-block ordering the code actually follows: request, then fetch,
then the pricer or curve object; an `FXVolSurface` sits between fetch and
pricer when the block builds one at all, and pricing or index-construction
methods run only after the pricer or curve exists. -/
def blockPatternAmended (t : List Event) : Bool :=
  match t.findIdx? (Event.isNewOf "MarketDataRequest"),
        t.findIdx? Event.isFetch,
        t.findIdx? (fun e => Event.isNewOf "FXOptionsPricer" e
          || Event.isNewOf "FXOptionsCurve" e) with
  | some i1, some i2, some i4 =>
      decide (i1 < i2) && decide (i2 < i4)
        && (match t.findIdx? (Event.isNewOf "FXVolSurface") with
            | some i3 => decide (i2 < i3) && decide (i3 < i4)
            | none => true)
        && t.enum.all (fun p => !(Event.isPricingCall p.2) || decide (i4 < p.1))
  | _, _, _ => false

/-- The seven example blocks of the two scripts. -/
def exampleBlocks : List (List Event) :=
  [pricingBlock1, pricingBlock2, pricingBlock3, pricingBlock4, pricingBlock5,
   indicesBlock1, indicesBlock2]

theorem pricingScript_cases (re : Nat) :
    pricingScript re = pricingTrace false false false false false ∨
    pricingScript re = pricingTrace true true true true true ∨
    pricingScript re = pricingTrace true false false false false ∨
    pricingScript re = pricingTrace false true false false false ∨
    pricingScript re = pricingTrace false false true false false ∨
    pricingScript re = pricingTrace false false false true false ∨
    pricingScript re = pricingTrace false false false false true := by
  match re with
  | 0 => exact Or.inr (Or.inl rfl)
  | 1 => exact Or.inr (Or.inr (Or.inl rfl))
  | 2 => exact Or.inr (Or.inr (Or.inr (Or.inl rfl)))
  | 3 => exact Or.inr (Or.inr (Or.inr (Or.inr (Or.inl rfl))))
  | 4 => exact Or.inr (Or.inr (Or.inr (Or.inr (Or.inr (Or.inl rfl)))))
  | 5 => exact Or.inr (Or.inr (Or.inr (Or.inr (Or.inr (Or.inr rfl)))))
  | n + 6 => exact Or.inl rfl

theorem indicesScript_cases (re : Nat) :
    indicesScript re = indicesTrace false false ∨
    indicesScript re = indicesTrace true true ∨
    indicesScript re = indicesTrace true false ∨
    indicesScript re = indicesTrace false true := by
  match re with
  | 0 => exact Or.inr (Or.inl rfl)
  | 1 => exact Or.inr (Or.inr (Or.inl rfl))
  | 2 => exact Or.inr (Or.inr (Or.inr rfl))
  | n + 3 => exact Or.inl rfl

/-- The `run_example == 1` block of fx_options_pricing_examples.py (lines
52-81) as a fallible pipeline.  Each external call may fail
(`Except.error`, e.g. interpolation failing on a missing volatility point);
the script contains no try/except, so the block is a plain sequence of
binds.  Arguments stand for the external library entry points; the three
`price_instrument` calls are distinguished by their strike/contract
strings. -/
def pricing_example1 {e MD VS PR R : Type}
    (fetch_market : Except e MD)
    (mkFXVolSurface : MD → Except e VS)
    (mkFXOptionsPricer : VS → Except e PR)
    (price_instrument : PR → String → String → Except e R) :
    Except e (R × R × R) :=
  Except.bind fetch_market (fun df =>
    Except.bind (mkFXVolSurface df) (fun fx_vol_surface =>
      Except.bind (mkFXOptionsPricer fx_vol_surface) (fun fx_op =>
        Except.bind (price_instrument fx_op "atm" "european-call") (fun p1 =>
          Except.bind (price_instrument fx_op "25d-otm" "european-put") (fun p2 =>
            Except.bind (price_instrument fx_op "1.50" "european-call") (fun p3 =>
              Except.ok (p1, p2, p3)))))))

/-- The `run_example == 1` block of fx_options_indices_examples.py (lines
73-144) as a fallible pipeline, up to the Bloomberg total-return fetch.
`ffill` is total (pandas `fillna` on a fetched frame); every other external
call may fail and nothing in the script catches. -/
def indices_example1 {e MD CV R : Type}
    (fetch_market : Except e MD)
    (ffill : MD → MD)
    (filter_holidays : MD → Except e MD)
    (mkFXOptionsCurve : Except e CV)
    (construct_total_return_index : CV → MD → String → Except e R)
    (apply_tc_to_total_return_index : CV → R → Except e R)
    (fetch_tot : Except e MD) :
    Except e (R × R × R × R × MD) :=
  Except.bind fetch_market (fun df0 =>
    Except.bind (filter_holidays (ffill df0)) (fun df =>
      Except.bind fetch_market (fun dfm =>
        let _df_market := ffill dfm
        Except.bind mkFXOptionsCurve (fun fx_options_curve =>
          Except.bind (construct_total_return_index fx_options_curve df
              "european-call") (fun call_tot =>
            Except.bind (apply_tc_to_total_return_index fx_options_curve
                call_tot) (fun call_tc =>
              Except.bind (construct_total_return_index fx_options_curve df
                  "european-put") (fun put_tot =>
                Except.bind (apply_tc_to_total_return_index fx_options_curve
                    put_tot) (fun put_tc =>
                  Except.bind fetch_tot (fun df_bbg_tot =>
                    Except.ok (call_tot, call_tc, put_tot, put_tc,
                      df_bbg_tot))))))))))

/-- Is the event an attribute assignment on the object held in `obj`? -/
def Event.isSetattrOn (obj : String) : Event → Bool
  | .setattr o _ => o == obj
  | _ => false

/-- Script variables holding the final priced tables of the pricing script:
each is printed and used nowhere else. -/
def pricingFinalTables : List String :=
  ["tmp_p1", "tmp_p2", "tmp_p3", "tmp_p4", "tmp_p5", "tmp_p6", "tmp_p7",
   "tmp_p8", "tmp_p9"]

/-- Script variables holding the final index tables of the index script:
each is plotted and used nowhere else. -/
def indicesFinalTables : List String :=
  ["tmp_c1", "tmp_c2", "tmp_c3", "df_index"]

/-- C1: the example scripts contain no original algorithms: no
script-defined function performs any data transformation or branching of
its own.  Refuted: the script-defined `prepare_indices` branches on which
of its arguments are `None`; on atomic inputs its library-call skeleton
differs between the all-`None` call and a call with `df_tot` supplied. -/
theorem prepare_indices_branches : ¬ prepare_indices_branch_free := fun h =>
  absurd (h "AUDUSD" none none none (some "df_tot") none none) (by decide)

/-- C1 (amended): `prepare_indices` does branch, but only on which of its
three arguments are supplied: on atomic inputs its library-call skeleton is
the fixed function `presence_skeleton` of the presence pattern alone, and
every node of its result is an external library operation. -/
theorem prepare_indices_skeleton_by_presence (cross : String)
    (a b c : Option String) :
    Frame.skeleton (prepare_indices cross (a.map Frame.input)
      (b.map Frame.input) (c.map Frame.input)) =
    presence_skeleton a.isSome b.isSome c.isSome := by
  cases a <;> cases b <;> cases c <;> rfl

/-- C2: the result of `prepare_indices` is claimed to depend only on its
three parameters, whatever the ambient script state.  Refuted: the function
reads the module-global `cross`; the same three arguments under the two
ambient values the script actually assigns (`'AUDUSD'` in block 1,
`'EURUSD'` in block 2) select different columns and give different
results. -/
theorem prepare_indices_reads_ambient_cross :
    prepare_indices "AUDUSD" (some (Frame.input "df_tot")) none none ≠
    prepare_indices "EURUSD" (some (Frame.input "df_tot")) none none := by
  decide

/-- C2 (amended): the result of `prepare_indices` is determined by its
three parameters together with the ambient global `cross`: two calls whose
arguments and ambient `cross` agree return equal indices. -/
theorem prepare_indices_deterministic_given_cross
    (x y : String) (a b c a2 b2 c2 : Option Frame)
    (hx : x = y) (ha : a = a2) (hb : b = b2) (hc : c = c2) :
    prepare_indices x a b c = prepare_indices y a2 b2 c2 := by
  subst hx; subst ha; subst hb; subst hc; rfl

theorem prepare_indices_deterministic_given_cross_witness :
    prepare_indices "EURUSD" none (some (Frame.input "straddle_tc"))
      (some (Frame.input "bbg_tot")) =
    prepare_indices "EURUSD" none (some (Frame.input "straddle_tc"))
      (some (Frame.input "bbg_tot")) :=
  prepare_indices_deterministic_given_cross "EURUSD" "EURUSD"
    none (some (Frame.input "straddle_tc")) (some (Frame.input "bbg_tot"))
    none (some (Frame.input "straddle_tc")) (some (Frame.input "bbg_tot"))
    rfl rfl rfl rfl

/-- C4: `prepare_indices` selects exactly the three stated columns of
`df_tot` in order, then the three `-with-tc` columns of `df_tc` in order,
appends `df_spot_tot` whole and last, and returns
`create_mult_index_from_prices` of the forward-filled outer join of exactly
these frames: the function coincides with the combination the claim
describes. -/
theorem prepare_indices_selects_described_columns (cross : String)
    (df_tot df_tc df_spot_tot : Option Frame) :
    prepare_indices cross df_tot df_tc df_spot_tot =
    prepare_indices_described cross df_tot df_tc df_spot_tot := by
  cases df_tot <;> cases df_tc <;> cases df_spot_tot <;> rfl

/-- C6: with all three parameters `None` (their defaults), `prepare_indices`
selects no column and hands the empty list to `pandas_outer_join`, whose
(forward-filled) result `create_mult_index_from_prices` is applied to. -/
theorem prepare_indices_all_none_empty_join (cross : String) :
    prepare_indices cross none none none =
      Frame.multIndex (Frame.ffill (Frame.outerJoin [])) ∧
    (prepare_indices cross none none none).cols = [] := by
  exact ⟨rfl, rfl⟩

/-- C5: between the first market-data fetch and the Bloomberg total-return
fetch of each index example block, the script reassigns exactly
`abstract_curve`, `category` and `cut` of `md_request` (to `None`,
`'fx-tot'` and `'NYC'`), and every other field still holds its
construction value at the second fetch; the block traces contain no other
attribute write to `md_request`. -/
theorem md_request_frame_between_fetches (a b : Option String) :
    ((set_spot_tot_fields (md_request_ex1 a)).start_date =
        (md_request_ex1 a).start_date ∧
     (set_spot_tot_fields (md_request_ex1 a)).finish_date =
        (md_request_ex1 a).finish_date ∧
     (set_spot_tot_fields (md_request_ex1 a)).data_source =
        (md_request_ex1 a).data_source ∧
     (set_spot_tot_fields (md_request_ex1 a)).tickers =
        (md_request_ex1 a).tickers ∧
     (set_spot_tot_fields (md_request_ex1 a)).fx_vol_tenor =
        (md_request_ex1 a).fx_vol_tenor ∧
     (set_spot_tot_fields (md_request_ex1 a)).cache_algo =
        (md_request_ex1 a).cache_algo ∧
     (set_spot_tot_fields (md_request_ex1 a)).base_depos_currencies =
        (md_request_ex1 a).base_depos_currencies ∧
     (set_spot_tot_fields (md_request_ex1 a)).abstract_curve = none ∧
     (set_spot_tot_fields (md_request_ex1 a)).category = "fx-tot" ∧
     (set_spot_tot_fields (md_request_ex1 a)).cut = "NYC") ∧
    ((set_spot_tot_fields (md_request_ex2 b)).start_date =
        (md_request_ex2 b).start_date ∧
     (set_spot_tot_fields (md_request_ex2 b)).finish_date =
        (md_request_ex2 b).finish_date ∧
     (set_spot_tot_fields (md_request_ex2 b)).data_source =
        (md_request_ex2 b).data_source ∧
     (set_spot_tot_fields (md_request_ex2 b)).tickers =
        (md_request_ex2 b).tickers ∧
     (set_spot_tot_fields (md_request_ex2 b)).fx_vol_tenor =
        (md_request_ex2 b).fx_vol_tenor ∧
     (set_spot_tot_fields (md_request_ex2 b)).cache_algo =
        (md_request_ex2 b).cache_algo ∧
     (set_spot_tot_fields (md_request_ex2 b)).base_depos_currencies =
        (md_request_ex2 b).base_depos_currencies ∧
     (set_spot_tot_fields (md_request_ex2 b)).abstract_curve = none ∧
     (set_spot_tot_fields (md_request_ex2 b)).category = "fx-tot" ∧
     (set_spot_tot_fields (md_request_ex2 b)).cut = "NYC") ∧
    indicesBlock1.filter (Event.isSetattrOn "md_request") =
      [Event.setattr "md_request" "abstract_curve",
       Event.setattr "md_request" "category",
       Event.setattr "md_request" "cut"] ∧
    indicesBlock2.filter (Event.isSetattrOn "md_request") =
      [Event.setattr "md_request" "abstract_curve",
       Event.setattr "md_request" "category",
       Event.setattr "md_request" "cut"] := by
  exact ⟨⟨rfl, rfl, rfl, rfl, rfl, rfl, rfl, rfl, rfl, rfl⟩,
         ⟨rfl, rfl, rfl, rfl, rfl, rfl, rfl, rfl, rfl, rfl⟩,
         by decide, by decide⟩

/-- C3: no script code catches, transforms, suppresses or replaces an
exception from an external library call: in both enabled example blocks,
an error raised at any stage surfaces as the block's own result,
unmodified.  Stated for the pricing `run_example == 1` pipeline at each of
its four stages and for the index `run_example == 1` pipeline at its fetch
and index-construction stages. -/
theorem external_errors_propagate_unmodified {e : Type} (err : e) :
    (∀ (MD VS PR R : Type) (fm : Except e MD) (sv : MD → Except e VS)
       (pr : VS → Except e PR) (pi : PR → String → String → Except e R),
       fm = Except.error err →
       pricing_example1 fm sv pr pi = Except.error err) ∧
    (∀ (MD VS PR R : Type) (fm : Except e MD) (sv : MD → Except e VS)
       (pr : VS → Except e PR) (pi : PR → String → String → Except e R)
       (d : MD), fm = Except.ok d → sv d = Except.error err →
       pricing_example1 fm sv pr pi = Except.error err) ∧
    (∀ (MD VS PR R : Type) (fm : Except e MD) (sv : MD → Except e VS)
       (pr : VS → Except e PR) (pi : PR → String → String → Except e R)
       (d : MD) (v : VS), fm = Except.ok d → sv d = Except.ok v →
       pr v = Except.error err →
       pricing_example1 fm sv pr pi = Except.error err) ∧
    (∀ (MD VS PR R : Type) (fm : Except e MD) (sv : MD → Except e VS)
       (pr : VS → Except e PR) (pi : PR → String → String → Except e R)
       (d : MD) (v : VS) (p : PR), fm = Except.ok d → sv d = Except.ok v →
       pr v = Except.ok p → pi p "atm" "european-call" = Except.error err →
       pricing_example1 fm sv pr pi = Except.error err) ∧
    (∀ (MD CV RI : Type) (fm : Except e MD) (ff : MD → MD)
       (fh : MD → Except e MD) (mc : Except e CV)
       (ct : CV → MD → String → Except e RI) (tc : CV → RI → Except e RI)
       (ft : Except e MD), fm = Except.error err →
       indices_example1 fm ff fh mc ct tc ft = Except.error err) ∧
    (∀ (MD CV RI : Type) (fm : Except e MD) (ff : MD → MD)
       (fh : MD → Except e MD) (mc : Except e CV)
       (ct : CV → MD → String → Except e RI) (tc : CV → RI → Except e RI)
       (ft : Except e MD) (d d2 : MD) (cv : CV),
       fm = Except.ok d → fh (ff d) = Except.ok d2 → mc = Except.ok cv →
       ct cv d2 "european-call" = Except.error err →
       indices_example1 fm ff fh mc ct tc ft = Except.error err) := by
  refine ⟨?_, ?_, ?_, ?_, ?_, ?_⟩
  · intro MD VS PR R fm sv pr pi h
    simp [pricing_example1, h, Except.bind]
  · intro MD VS PR R fm sv pr pi d h1 h2
    simp [pricing_example1, h1, h2, Except.bind]
  · intro MD VS PR R fm sv pr pi d v h1 h2 h3
    simp [pricing_example1, h1, h2, h3, Except.bind]
  · intro MD VS PR R fm sv pr pi d v p h1 h2 h3 h4
    simp [pricing_example1, h1, h2, h3, h4, Except.bind]
  · intro MD CV RI fm ff fh mc ct tc ft h
    simp [indices_example1, h, Except.bind]
  · intro MD CV RI fm ff fh mc ct tc ft d d2 cv h1 h2 h3 h4
    simp [indices_example1, h1, h2, h3, h4, Except.bind]

theorem external_errors_propagate_unmodified_witness :
    @pricing_example1 String Unit Unit Unit Unit
      (Except.error "missing vol point") (fun _ => Except.ok ())
      (fun _ => Except.ok ()) (fun _ _ _ => Except.ok ()) =
      Except.error "missing vol point" ∧
    @pricing_example1 String Unit Unit Unit Unit (Except.ok ())
      (fun _ => Except.error "surface fit failed") (fun _ => Except.ok ())
      (fun _ _ _ => Except.ok ()) = Except.error "surface fit failed" ∧
    @pricing_example1 String Unit Unit Unit Unit (Except.ok ())
      (fun _ => Except.ok ()) (fun _ => Except.error "pricer init failed")
      (fun _ _ _ => Except.ok ()) = Except.error "pricer init failed" ∧
    @pricing_example1 String Unit Unit Unit Unit (Except.ok ())
      (fun _ => Except.ok ()) (fun _ => Except.ok ())
      (fun _ _ _ => Except.error "interpolation failed") =
      Except.error "interpolation failed" ∧
    @indices_example1 String Unit Unit Unit
      (Except.error "missing vol point") id (fun d => Except.ok d)
      (Except.ok ()) (fun _ _ _ => Except.ok ()) (fun _ r => Except.ok r)
      (Except.ok ()) = Except.error "missing vol point" ∧
    @indices_example1 String Unit Unit Unit (Except.ok ()) id
      (fun d => Except.ok d) (Except.ok ())
      (fun _ _ _ => Except.error "interpolation failed")
      (fun _ r => Except.ok r) (Except.ok ()) =
      Except.error "interpolation failed" :=
  ⟨(external_errors_propagate_unmodified "missing vol point").1
      Unit Unit Unit Unit _ _ _ _ rfl,
   (external_errors_propagate_unmodified "surface fit failed").2.1
      Unit Unit Unit Unit _ _ _ _ () rfl rfl,
   (external_errors_propagate_unmodified "pricer init failed").2.2.1
      Unit Unit Unit Unit _ _ _ _ () () rfl rfl rfl,
   (external_errors_propagate_unmodified "interpolation failed").2.2.2.1
      Unit Unit Unit Unit _ _ _ _ () () () rfl rfl rfl rfl,
   (external_errors_propagate_unmodified "missing vol point").2.2.2.2.1
      Unit Unit Unit _ _ _ _ _ _ _ rfl,
   (external_errors_propagate_unmodified "interpolation failed").2.2.2.2.2
      Unit Unit Unit _ _ _ _ _ _ _ () () () rfl rfl rfl rfl⟩

/-- C7: whatever `run_example` selects, the scripts write no program state
beyond their own variables, and each final table (every priced table of
the pricing script, every prepared index of the index script) is consumed
only by printing and plotting calls. -/
theorem scripts_interface_surface (rp ri : Nat) :
    noOutsideWrites (pricingScript rp) = true ∧
    noOutsideWrites (indicesScript ri) = true ∧
    pricingFinalTables.all
      (fun v => consumedOnlyByOutput v (pricingTrace true true true true true))
      = true ∧
    indicesFinalTables.all
      (fun v => consumedOnlyByOutput v (indicesTrace true true)) = true := by
  refine ⟨?_, ?_, by decide, by decide⟩
  · rcases pricingScript_cases rp with h | h | h | h | h | h | h <;>
      rw [h] <;> decide
  · rcases indicesScript_cases ri with h | h | h | h <;> rw [h] <;> decide

/-- C8: whatever `run_example` selects, no event of either script starts a
thread or a process: every execution is a single-threaded, synchronous
sequence of events. -/
theorem scripts_single_threaded (rp ri : Nat) :
    singleThreaded (pricingScript rp) = true ∧
    singleThreaded (indicesScript ri) = true := by
  constructor
  · rcases pricingScript_cases rp with h | h | h | h | h | h | h <;>
      rw [h] <;> decide
  · rcases indicesScript_cases ri with h | h | h | h <;> rw [h] <;> decide

/-- C9: each enabled block is claimed to instantiate, in order, a
`MarketDataRequest`, a fetch, an `FXVolSurface`, then a pricer or curve.
Refuted: the index block enabled by the script's `run_example = 2` never
instantiates an `FXVolSurface` (its `FXOptionsCurve` is built from the
parameter set alone), so the stated sequence does not occur in it. -/
theorem indices_block_lacks_vol_surface :
    blockPatternStated indicesBlock2 = false ∧
    indicesBlock2 ∈ exampleBlocks ∧
    indicesScript 2 = scriptPrelude ++ indicesBlock2 :=
  ⟨by decide, by decide, rfl⟩

/-- C9 (amended): each example block constructs a `MarketDataRequest`,
fetches market data with it, then builds its pricing object — an
`FXVolSurface` followed by an `FXOptionsPricer` in the pricing blocks, an
`FXOptionsCurve` from the parameter set in the index blocks — and only
then calls that object's pricing or index-construction methods; in every
full script trace each object is bound before any use of it. -/
theorem blocks_follow_construction_order :
    exampleBlocks.all blockPatternAmended = true ∧
    (∀ rp : Nat, usesAfterDef initEnv (pricingScript rp) = true) ∧
    (∀ ri : Nat, usesAfterDef initEnv (indicesScript ri) = true) := by
  refine ⟨by decide, ?_, ?_⟩
  · intro rp
    rcases pricingScript_cases rp with h | h | h | h | h | h | h <;>
      rw [h] <;> decide
  · intro ri
    rcases indicesScript_cases ri with h | h | h | h <;> rw [h] <;> decide
